import Mathlib

/-!
# Verification of the webmo spectral lineshape module

Shallow embedding of the lineshape functions of `webmo/webmo_rest.py`
(`_faddeeva`, `_voigt_decoder`, `_arb_voigt`, `_arb_gaussian`, `_arb_lorentz`,
`voigt_line`, `gauss_line`, `lorentz_line`) over the real and complex numbers,
together with theorems settling the specification claims about them.

Python floats are idealized as real numbers; decimal literals denote their
exact decimal values.  `numpy.arange` is modeled as returning `none` when
`step = 0` (numpy raises `ZeroDivisionError` there), and otherwise the list
of points `start + i*step` of length `max 0 ⌈(stop-start)/step⌉`, which is
numpy's documented length formula for a float-argument `arange`.
`numpy.vectorize` without `otypes` is modeled as returning `none` on a
size-0 input (numpy raises `ValueError` there, since it probes the first
element to determine the output dtype) and the elementwise image otherwise.
-/

set_option maxRecDepth 8000
set_option maxHeartbeats 2000000

/-- Entries 0..99 (source order) of the 1000-entry coefficient list `l`
built inside `_faddeeva` (webmo/webmo_rest.py); the list is split into ten
blocks of 100 only to keep each declaration tractable. -/
noncomputable def faddeeva_basis_0 : List ℝ := [
  5.11748989e-16, -1.44365777e-16, 1.71205586e-16, 1.43270169e-16,
  2.40509424e-16, 9.34400028e-17, 3.33586468e-16, 2.07038704e-16,
  3.95030052e-16, -2.26565767e-17, 2.99460336e-16, 5.72632548e-16,
  1.29042294e-16, -7.07527120e-17, -5.62526370e-18, 2.36711749e-16,
  1.02183724e-16, -4.34250382e-16, -8.07532865e-17, -4.96929924e-16,
  1.26045192e-16, -2.53796359e-16, -1.03766119e-16, -2.15858058e-16,
  -1.83552885e-16, -8.67481915e-17, -3.07549909e-16, -2.74584240e-16,
  -2.69389284e-17, -4.24362029e-16, -5.95060089e-16, -3.70830265e-16,
  2.29567357e-16, 7.09903912e-17, -9.60967179e-16, 2.56731866e-16,
  -4.28826105e-16, -4.30205991e-16, -5.08718759e-16, -2.72358486e-16,
  -2.89119580e-16, -3.97432513e-16, -4.35239789e-16, -8.06482626e-17,
  -8.25507147e-16, -3.76087656e-16, -8.24193610e-16, -5.49494587e-16,
  -6.65608655e-16, -7.53824209e-16, -7.22452074e-16, -3.57335854e-16,
  -2.98311037e-16, -4.14104958e-16, -2.58059335e-16, -7.98829398e-16,
  -3.86795717e-16, -2.37823897e-16, -1.83073068e-16, -8.98227362e-17,
  -5.28120565e-17, -4.52881008e-16, -1.81103394e-16, -8.56200133e-17,
  -1.22186640e-16, -5.41322089e-17, -7.24757378e-16, -3.50403658e-16,
  -1.42903007e-16, -1.86846592e-16, -3.94211076e-16, -5.10446457e-16,
  -2.41826709e-16, -1.21038373e-16, -3.79652685e-16, -3.19221360e-16,
  -3.57241318e-16, -3.08579376e-16, -1.28131320e-16, -3.12949918e-16,
  -2.46392992e-16, -2.91414183e-16, -2.85635470e-16, -8.72117464e-17,
  -5.38404011e-17, -7.88752966e-17, 8.44277161e-17, 2.10083596e-17,
  1.82773768e-17, -4.62896364e-16, -2.15480876e-16, -3.50123461e-16,
  -2.44328019e-16, -5.22369602e-16, -3.02177957e-16, -4.95661311e-16,
  -2.05232527e-16, -6.89780504e-16, -5.76999940e-16, -3.57086548e-16]

theorem faddeeva_basis_0_sum : faddeeva_basis_0.sum = -(222927650389 / 10000000000000000000000000) := by
  simp only [faddeeva_basis_0, List.sum_cons, List.sum_nil]
  norm_num

/-- Entries 100..199 (source order) of the 1000-entry coefficient list `l`
built inside `_faddeeva` (webmo/webmo_rest.py); the list is split into ten
blocks of 100 only to keep each declaration tractable. -/
noncomputable def faddeeva_basis_1 : List ℝ := [
  -1.73695260e-16, -5.10360238e-16, -3.18226893e-16, -6.53936479e-16,
  -4.07209831e-16, -5.23531607e-16, -6.25241467e-16, -5.59616421e-16,
  -5.05190494e-16, -4.95920116e-16, 5.91918728e-17, -4.24242069e-16,
  -4.26716888e-16, -1.94214030e-16, -3.91975316e-16, 1.89855222e-17,
  -8.41436616e-17, -1.91135361e-16, 1.17185773e-16, 1.70875441e-17,
  -7.82465278e-17, -4.50946865e-16, -3.49996280e-16, -3.61639701e-16,
  -1.44123098e-16, -4.53945169e-16, -1.19604860e-16, -1.05312368e-16,
  -1.05598414e-16, -1.98885939e-16, -1.60492266e-16, -5.06892532e-17,
  -2.08435369e-16, -1.15672143e-16, -2.28953471e-16, -2.10576416e-16,
  -1.43268468e-16, -3.93351320e-16, -3.19012003e-16, -2.86881044e-16,
  -3.09187106e-16, 4.85144017e-17, -1.43142304e-17, -2.05880804e-16,
  -2.88573343e-16, -2.34476402e-16, -4.24449546e-16, -3.15047863e-16,
  7.15863776e-18, -9.40085268e-17, -3.41068217e-16, -5.81558958e-16,
  -1.23060165e-16, -2.29925794e-16, -1.00051620e-16, 2.60549021e-16,
  -1.95855091e-16, -6.47544512e-16, -2.11951657e-16, 1.68350302e-16,
  -3.31451746e-16, -9.37946003e-17, -5.38246225e-17, 2.45588357e-16,
  -1.55116503e-16, 1.47231294e-16, 3.32452583e-17, -1.15883349e-16,
  -6.26556401e-17, -4.11199133e-16, 3.40065530e-16, 2.76793021e-16,
  4.41447793e-16, 5.24289805e-16, 2.00946326e-16, 3.90427144e-16,
  1.15328785e-16, 1.07955299e-17, -2.17963342e-17, 4.93958279e-16,
  2.49313066e-17, -1.32566816e-16, 4.10357049e-16, -4.52822565e-16,
  4.07881112e-16, -7.92449589e-17, 1.19915180e-16, 1.39818533e-15,
  1.00809312e-17, -4.43575229e-16, -5.06216625e-17, 4.14292705e-17,
  3.96859128e-17, -8.34232666e-16, 9.11190986e-16, 9.32038663e-16,
  8.84033937e-18, 6.99303277e-18, 9.01104015e-16, 9.15275917e-16]

theorem faddeeva_basis_1_sum : faddeeva_basis_1.sum = -(84816775253 / 10000000000000000000000000) := by
  simp only [faddeeva_basis_1, List.sum_cons, List.sum_nil]
  norm_num

/-- Entries 200..299 (source order) of the 1000-entry coefficient list `l`
built inside `_faddeeva` (webmo/webmo_rest.py); the list is split into ten
blocks of 100 only to keep each declaration tractable. -/
noncomputable def faddeeva_basis_2 : List ℝ := [
  0.00000000e00, 9.09494702e-16, 0.00000000e00, -9.09494702e-16,
  0.00000000e00, -9.09494702e-16, -9.09494702e-16, 0.00000000e00,
  -9.09494702e-16, 0.00000000e00, 0.00000000e00, -4.54747351e-16,
  -4.54747351e-16, 0.00000000e00, 0.00000000e00, 4.54747351e-16,
  4.54747351e-16, 0.00000000e00, 4.54747351e-16, 0.00000000e00,
  0.00000000e00, 0.00000000e00, 0.00000000e00, 4.54747351e-16,
  0.00000000e00, 4.54747351e-16, 4.54747351e-16, -4.54747351e-16,
  0.00000000e00, 0.00000000e00, -4.54747351e-16, -4.54747351e-16,
  0.00000000e00, 2.27373675e-16, -2.27373675e-16, -2.27373675e-16,
  0.00000000e00, -2.27373675e-16, -3.41060513e-16, -2.27373675e-16,
  -1.13686838e-16, -2.27373675e-16, 0.00000000e00, 5.68434189e-17,
  5.68434189e-17, 3.97903932e-16, 1.70530257e-16, -2.27373675e-16,
  1.70530257e-16, 0.00000000e00, 3.12638804e-16, 1.42108547e-17,
  -1.13686838e-16, 1.98951966e-16, 9.94759830e-17, 9.94759830e-17,
  1.20792265e-16, 3.41060513e-16, 2.62900812e-16, 1.06581410e-16,
  2.73558953e-16, 2.13162821e-17, 2.87769808e-16, 1.81188398e-16,
  4.19220214e-16, 3.90798505e-17, 2.38031816e-16, 1.49213975e-16,
  4.86721774e-16, 6.03961325e-17, 3.49054119e-16, 1.88737914e-16,
  3.00204306e-16, 4.88498131e-17, 9.72555370e-17, 5.17141885e-16,
  1.27453603e-16, 4.18998169e-16, 4.35429470e-16, 2.03947970e-16,
  3.28403971e-16, 7.09432513e-17, 2.75390821e-16, 1.28230759e-16,
  1.38278278e-16, 1.62314606e-16, 1.17683641e-16, -7.49122986e-17,
  -4.42562653e-17, 2.25021390e-16, 5.67809688e-17, -9.29117894e-17,
  4.77465290e-17, -4.95159469e-17, -7.98319744e-17, -1.82109536e-16,
  1.66366920e-16, -1.86119349e-16, 1.35362208e-16, -3.26893894e-16]

theorem faddeeva_basis_2_sum : faddeeva_basis_2.sum = 20446214171 / 5000000000000000000000000 := by
  simp only [faddeeva_basis_2, List.sum_cons, List.sum_nil]
  norm_num

/-- Entries 300..399 (source order) of the 1000-entry coefficient list `l`
built inside `_faddeeva` (webmo/webmo_rest.py); the list is split into ten
blocks of 100 only to keep each declaration tractable. -/
noncomputable def faddeeva_basis_3 : List ℝ := [
  1.89110880e-16, 8.02986150e-17, 2.42919400e-16, -1.88988365e-16,
  1.09200626e-16, -1.55745100e-16, -1.23230690e-16, -7.49633103e-17,
  -1.58868199e-16, -5.36516361e-17, 2.77595573e-16, 2.81580071e-16,
  -2.95155908e-16, -2.48784798e-16, 2.91340472e-16, 1.36892539e-16,
  1.70318153e-16, 1.73748269e-16, 4.65475589e-17, -2.31324207e-16,
  1.83833839e-17, -6.04137894e-17, 4.80069234e-17, -2.85632380e-16,
  3.67524426e-17, -4.74434771e-17, -3.17576294e-16, -1.71678676e-16,
  -1.08599054e-16, -2.18406185e-16, 1.85501493e-16, -1.46516971e-17,
  -9.07895605e-17, -7.19678890e-17, 1.53856704e-16, -1.40846832e-16,
  7.20265739e-17, -2.54008979e-16, -1.23325143e-16, 2.75474757e-16,
  2.32616486e-16, -1.75463698e-16, 9.79362317e-17, 2.20669333e-16,
  -2.29810374e-16, -7.95069634e-17, 2.87994117e-16, 3.12697006e-16,
  3.14586804e-16, 1.79021616e-16, 2.06952162e-17, -2.67293573e-16,
  3.45231230e-16, 8.68326886e-17, 2.65629639e-16, 3.06821693e-18,
  1.34860677e-16, 2.74418053e-16, -3.04162528e-16, 1.09786189e-16,
  -1.54948449e-17, -3.43520294e-16, -8.60630571e-17, -3.28755503e-16,
  -2.06357180e-16, -7.70834219e-16, -4.48670877e-16, -4.21195874e-16,
  -3.33542439e-16, -1.12012549e-16, 1.31482158e-16, -9.05916732e-17,
  -1.88320054e-16, -2.71973298e-16, -1.85779885e-16, -2.41487719e-16,
  -3.34298416e-16, -1.26864283e-16, -1.07737460e-16, -3.00912980e-16,
  -5.14639839e-16, -3.53320333e-16, -5.69661721e-16, -1.64073995e-16,
  -1.61323191e-16, -6.91875273e-16, 2.10402594e-17, -4.97408214e-16,
  -9.58387029e-17, -4.71724194e-16, -2.64915700e-16, -3.20381256e-16,
  -1.81528269e-16, -3.63661361e-16, -3.33501787e-16, -4.82454667e-16,
  1.92955199e-17, -2.70836693e-16, 3.39983475e-17, 6.18997114e-17]

theorem faddeeva_basis_3_sum : faddeeva_basis_3.sum = -(920053317267 / 100000000000000000000000000) := by
  simp only [faddeeva_basis_3, List.sum_cons, List.sum_nil]
  norm_num

/-- Entries 400..499 (source order) of the 1000-entry coefficient list `l`
built inside `_faddeeva` (webmo/webmo_rest.py); the list is split into ten
blocks of 100 only to keep each declaration tractable. -/
noncomputable def faddeeva_basis_4 : List ℝ := [
  -1.02320106e-16, 1.27057441e-16, 8.31854263e-17, -1.18884147e-16,
  9.89208773e-17, 2.55999309e-16, -1.28411687e-17, 1.37041750e-16,
  1.06258503e-16, 4.81342042e-16, 4.98521006e-16, 2.55381445e-16,
  2.54674725e-16, 2.62261848e-16, 3.83584674e-16, 1.89662976e-16,
  1.26359468e-16, 3.08514032e-16, 2.58755647e-16, 2.87385786e-16,
  8.62079097e-17, 2.85730122e-16, 1.60530531e-16, 2.12208599e-16,
  -7.50533882e-17, 1.03721015e-16, -9.44620129e-17, -1.25196451e-17,
  1.83989433e-16, 1.02092358e-16, 1.23199547e-16, 3.12924987e-16,
  7.94899735e-18, 3.13515155e-17, -1.91924262e-16, -1.57024233e-16,
  -1.16563275e-16, 1.01280507e-16, -3.14811048e-16, -1.99895021e-16,
  3.17185157e-17, 3.72378215e-16, -2.48438099e-17, -1.96408130e-16,
  2.19875515e-16, -1.48259617e-16, -1.88755403e-16, 6.10412835e-17,
  -7.97417495e-17, 1.04554694e-16, -1.34343584e-16, 1.57394697e-16,
  -2.97867426e-16, 9.44191922e-17, -3.12413672e-16, 1.09925848e-16,
  -1.70858155e-16, 1.22319748e-16, -2.39270244e-16, 2.99282075e-16,
  2.71551291e-16, 1.51896598e-16, -1.91045098e-16, 3.37244715e-16,
  -1.68447924e-16, 2.78788148e-16, -1.02388408e-16, 2.28266264e-16,
  -1.06314013e-16, 7.49857205e-17, 6.80150911e-17, 2.62399291e-16,
  2.93062592e-16, 6.72930693e-16, 1.23409884e-16, 7.80241772e-17,
  1.23935426e-16, 7.42401592e-17, -4.97733202e-17, 2.24872387e-17,
  3.13006754e-17, 4.36894318e-16, -2.73584271e-17, 5.34106732e-16,
  3.04015329e-17, 3.55236272e-16, 2.00061692e-16, 2.35008822e-17,
  2.00115055e-16, 7.50216609e-16, 1.71467707e-16, 5.48936595e-16,
  6.59987339e-16, 9.11465756e-16, 3.27550321e-16, 3.16454926e-16,
  3.25061464e-16, 3.92881805e-16, 4.45080470e-16, 4.34813674e-16]

theorem faddeeva_basis_4_sum : faddeeva_basis_4.sum = 274427721743 / 20000000000000000000000000 := by
  simp only [faddeeva_basis_4, List.sum_cons, List.sum_nil]
  norm_num

/-- Entries 500..599 (source order) of the 1000-entry coefficient list `l`
built inside `_faddeeva` (webmo/webmo_rest.py); the list is split into ten
blocks of 100 only to keep each declaration tractable. -/
noncomputable def faddeeva_basis_5 : List ℝ := [
  2.86276929e-16, 2.80084273e-16, 4.02814643e-16, 2.86153600e-16,
  1.46638302e-16, 2.34169964e-16, -3.36764594e-17, 1.72043602e-16,
  3.94568392e-16, 1.84240100e-16, 1.58638568e-16, -6.67371223e-17,
  2.14683219e-16, -4.10907209e-17, -5.60176818e-18, -4.23445380e-16,
  1.13835939e-18, -1.09095088e-16, 8.20242358e-17, 8.94645890e-17,
  1.93399044e-16, 3.99021608e-17, -1.82013746e-16, 6.18526657e-16,
  -1.11938105e-16, 6.66551783e-16, 5.13967366e-16, 5.58363111e-16,
  -4.19435265e-18, -3.54000381e-16, 1.01030703e-16, 4.22960946e-16,
  2.42257871e-16, 1.01132651e-16, 1.82876993e-16, -9.86957381e-17,
  3.56039675e-16, 1.05496299e-16, 3.44095847e-16, 5.75735467e-16,
  2.24941492e-16, 2.69783032e-16, 1.92864050e-16, -9.74377652e-18,
  2.79461094e-16, -3.94524145e-16, 6.85116549e-17, -3.18711202e-16,
  -7.88669123e-17, 7.99601369e-17, -2.31458426e-17, -2.50800230e-16,
  -7.86084747e-17, -4.74833060e-16, -4.36565773e-17, -1.55929470e-16,
  -4.05522987e-16, -3.59094184e-16, -2.55120726e-16, -4.05726600e-16,
  -2.13699502e-16, -5.41348764e-16, -4.78030787e-17, -2.58327801e-16,
  -3.46581471e-16, -3.46533290e-16, -8.53057559e-17, -5.38831280e-16,
  -3.46786352e-16, -4.32363655e-16, -1.68813053e-16, -7.17961227e-17,
  -3.91976466e-16, -2.55961277e-16, -6.32428739e-17, -2.99788312e-16,
  5.13471358e-17, -4.10951740e-16, -1.03668319e-17, -2.33628706e-16,
  -3.38590834e-16, -5.28009955e-18, -6.29904955e-17, -2.06798096e-16,
  -2.06115411e-16, -5.30012252e-16, -8.60235170e-17, -3.79126886e-16,
  -3.93774310e-16, -1.23453191e-16, -1.98039359e-16, -2.99884806e-16,
  -1.70348792e-16, -5.75530462e-16, -1.90399233e-17, -1.33260936e-16,
  -2.41764387e-16, -2.41057218e-16, 2.74137576e-17, -1.43504070e-16]

theorem faddeeva_basis_5_sum : faddeeva_basis_5.sum = -(495391672321 / 100000000000000000000000000) := by
  simp only [faddeeva_basis_5, List.sum_cons, List.sum_nil]
  norm_num

/-- Entries 600..699 (source order) of the 1000-entry coefficient list `l`
built inside `_faddeeva` (webmo/webmo_rest.py); the list is split into ten
blocks of 100 only to keep each declaration tractable. -/
noncomputable def faddeeva_basis_6 : List ℝ := [
  -1.79498040e-16, -1.49035292e-16, -5.13045291e-17, 7.64957220e-17,
  -9.01996753e-18, 7.79047747e-17, 8.01635709e-17, 1.01525911e-16,
  3.24917016e-16, 1.64160518e-16, 1.22226009e-16, 5.58281902e-16,
  7.64857413e-17, 2.02497667e-16, 8.65193004e-17, 3.72152535e-16,
  -9.26868752e-18, -2.09224351e-16, -8.47794702e-17, -1.25922233e-16,
  1.29086358e-16, 2.89461144e-16, -8.20626177e-17, -5.16486509e-17,
  1.83191796e-16, -3.06674860e-16, -1.13915329e-16, 3.80596575e-16,
  -3.28275082e-16, 1.10666724e-16, -5.99813539e-17, 1.05195582e-16,
  -1.75628122e-16, -3.65824066e-16, -4.36305437e-16, -1.34170680e-16,
  -2.35694163e-18, -8.44147857e-17, -2.29387585e-16, -2.49491085e-16,
  -3.82957891e-16, -2.01082319e-16, -3.69520171e-16, 3.08359859e-16,
  -1.99895640e-17, -3.32817349e-16, -1.20815203e-16, -3.95566702e-18,
  -4.24507796e-16, -3.33867325e-16, -6.50492639e-16, -4.67244932e-16,
  -6.40278657e-17, -1.99413595e-16, -6.38794849e-17, -4.86309451e-16,
  -3.90516920e-16, -5.53476004e-16, -4.25387534e-16, -5.07859220e-16,
  1.50184194e-16, -1.56593179e-16, -5.77023883e-17, -1.20813224e-16,
  -2.42609780e-16, -6.96228162e-16, -2.31425493e-16, -5.63834410e-16,
  -3.28654446e-16, -3.29201011e-16, 1.15017889e-16, -5.36343420e-16,
  -2.25728055e-17, -4.08400873e-16, -7.62532358e-18, -5.63480342e-16,
  2.29275694e-17, -3.86463027e-16, -1.19440287e-16, -1.12034603e-17,
  -4.48245375e-16, -8.71150653e-17, -3.59698822e-16, 7.63701580e-16,
  -2.09249540e-16, -7.29027711e-17, 4.34806301e-16, 2.79370416e-16,
  4.35781459e-16, 9.68543292e-17, 1.82341529e-16, 4.66259454e-16,
  4.58752443e-16, -5.47309304e-16, 4.82142613e-16, 6.60132335e-16,
  4.61280949e-16, -3.13067390e-16, 1.92698504e-16, 1.04964129e-16]

theorem faddeeva_basis_6_sum : faddeeva_basis_6.sum = -(359969279849 / 50000000000000000000000000) := by
  simp only [faddeeva_basis_6, List.sum_cons, List.sum_nil]
  norm_num

/-- Entries 700..799 (source order) of the 1000-entry coefficient list `l`
built inside `_faddeeva` (webmo/webmo_rest.py); the list is split into ten
blocks of 100 only to keep each declaration tractable. -/
noncomputable def faddeeva_basis_7 : List ℝ := [
  -8.98832392e-17, -3.42289455e-16, 3.43710315e-16, 3.40297977e-17,
  2.34400799e-16, 3.56171595e-17, -1.35737919e-16, 4.13360932e-16,
  9.28909624e-17, -5.26283763e-17, 5.39552046e-16, 2.63123975e-16,
  1.77400491e-16, 1.60163316e-16, 1.73522799e-16, 2.60524046e-16,
  3.91736558e-16, 1.22245854e-16, 5.72475581e-16, -2.79943119e-17,
  5.39626522e-16, 4.69224371e-16, 1.79053135e-16, 4.94826390e-16,
  3.39932067e-16, 8.38290822e-17, 2.83931853e-16, 5.55942954e-16,
  4.19747676e-16, 2.79124937e-16, 2.03558902e-16, 4.24519122e-16,
  1.02658980e-16, 1.89197331e-17, 3.63112861e-16, 1.41263763e-16,
  -6.39833244e-17, 2.94156130e-16, 1.19279922e-16, 2.62537867e-16,
  9.23250107e-17, 9.54340873e-17, 2.02657914e-16, 8.56837549e-17,
  1.09912242e-16, 3.25830034e-16, -6.06707638e-17, 1.19561917e-16,
  1.82940837e-18, -4.63814691e-17, -1.76004402e-16, -1.14268787e-16,
  -1.99388849e-16, -2.34993921e-16, -2.91227483e-16, 7.53550548e-18,
  4.82690083e-18, -2.38575495e-16, -2.44652589e-16, -8.24120125e-17,
  -1.33320590e-16, -2.00054414e-16, -1.43372915e-16, 1.89338899e-16,
  -3.10018714e-16, -1.46340691e-16, -1.07599704e-16, -1.64066751e-16,
  -2.17562644e-16, -1.17636359e-16, -1.86483075e-16, 5.34358570e-17,
  -4.22094388e-17, 1.49639967e-16, -9.19369910e-17, 6.43735552e-17,
  -4.95497319e-17, 3.33550953e-16, -5.58797396e-18, 1.08044533e-17,
  -5.68782134e-17, -1.09699521e-16, 2.02816822e-17, 6.57529483e-18,
  -5.62985774e-17, 1.37422525e-16, 3.68137873e-16, 2.93855626e-16,
  4.60911681e-16, 2.79558527e-16, 1.93645149e-16, 4.29339673e-16,
  3.94346119e-16, -9.11980916e-17, 2.08587798e-16, 4.60632308e-16,
  2.46253693e-16, 2.94939706e-16, 2.89601071e-16, 2.36630408e-16]

theorem faddeeva_basis_7_sum : faddeeva_basis_7.sum = 8741242959 / 800000000000000000000000 := by
  simp only [faddeeva_basis_7, List.sum_cons, List.sum_nil]
  norm_num

/-- Entries 800..899 (source order) of the 1000-entry coefficient list `l`
built inside `_faddeeva` (webmo/webmo_rest.py); the list is split into ten
blocks of 100 only to keep each declaration tractable. -/
noncomputable def faddeeva_basis_8 : List ℝ := [
  3.40090024e-16, 2.08679525e-16, 1.92263017e-16, 9.71798469e-17,
  2.75039790e-16, 4.35625730e-16, 3.44388483e-16, 3.13739000e-16,
  2.67825858e-16, 5.23555689e-16, 7.02254341e-17, 1.24864649e-16,
  3.20139668e-16, 2.33491483e-16, 2.19996198e-16, 3.10765864e-16,
  1.92283246e-16, 4.58564011e-16, 5.97928541e-16, 1.65336064e-16,
  1.97369721e-16, 4.79474407e-16, 4.74556351e-16, -2.72567462e-17,
  4.84030144e-16, 2.35944695e-16, -1.64178854e-16, 2.08598406e-16,
  4.78048738e-16, -1.07186669e-16, 2.72374315e-16, 1.30982162e-16,
  6.19721697e-16, 1.84166717e-16, 2.19916975e-16, -8.38157837e-17,
  3.10783706e-16, 1.43651243e-16, 8.32086938e-16, -8.60950101e-17,
  1.12719684e-15, 1.25055521e-15, 1.59161573e-15, 2.61479727e-15,
  5.34328137e-15, 8.24229573e-15, 1.30739863e-14, 2.09752216e-14,
  3.33102435e-14, 5.24096322e-14, 8.29913915e-14, 1.30512490e-13,
  2.04465778e-13, 3.19687388e-13, 4.96527264e-13, 7.69091457e-13,
  1.18768639e-12, 1.82723170e-12, 2.80164159e-12, 4.28093472e-12,
  6.51965593e-12, 9.89587079e-12, 1.49690322e-11, 2.25677468e-11,
  3.39091173e-11, 5.07809830e-11, 7.57933947e-11, 1.12751053e-10,
  1.67175699e-10, 2.47052924e-10, 3.63894571e-10, 5.34237415e-10,
  7.81753258e-10, 1.14021130e-09, 1.65761999e-09, 2.40199471e-09,
  3.46936706e-09, 4.99485579e-09, 7.16792849e-09, 1.02533485e-08,
  1.46198336e-08, 2.07791178e-08, 2.94389945e-08, 4.15750919e-08,
  5.85276356e-08, 8.21314254e-08, 1.14889782e-07, 1.60206498e-07,
  2.22693985e-07, 3.08581163e-07, 4.26251360e-07, 5.86949080e-07,
  8.05705175e-07, 1.10254346e-06, 1.50404848e-06, 2.04539498e-06,
  2.77296513e-06, 3.74771110e-06, 5.04945887e-06, 6.78239587e-06]

theorem faddeeva_basis_8_sum : faddeeva_basis_8.sum = 25910385909564869523 / 1000000000000000000000000 := by
  simp only [faddeeva_basis_8, List.sum_cons, List.sum_nil]
  norm_num

/-- Entries 900..999 (source order) of the 1000-entry coefficient list `l`
built inside `_faddeeva` (webmo/webmo_rest.py); the list is split into ten
blocks of 100 only to keep each declaration tractable. -/
noncomputable def faddeeva_basis_9 : List ℝ := [
  9.08204151e-06, 1.21240672e-05, 1.61354139e-05, 2.14082509e-05,
  2.83174350e-05, 3.73422599e-05, 4.90934463e-05, 6.43464991e-05,
  8.40827711e-05, 1.09539808e-04, 1.42272822e-04, 1.84229443e-04,
  2.37840239e-04, 3.06127873e-04, 3.92838172e-04, 5.02596823e-04,
  6.41095903e-04, 8.15314926e-04, 1.03378162e-03, 1.30687819e-03,
  1.64719925e-03, 2.06996828e-03, 2.59351969e-03, 3.23985416e-03,
  4.03527510e-03, 5.01111418e-03, 6.20455414e-03, 7.65955651e-03,
  9.42790170e-03, 1.15703481e-02, 1.41579155e-02, 1.72732972e-02,
  2.10124030e-02, 2.54860316e-02, 3.08216711e-02, 3.71654197e-02,
  4.46840156e-02, 5.35669618e-02, 6.40287248e-02, 7.63109798e-02,
  9.06848724e-02, 1.07453255e-01, 1.26952855e-01, 1.49556315e-01,
  1.75674058e-01, 2.05755892e-01, 2.40292299e-01, 2.79815316e-01,
  3.24898926e-01, 3.76158879e-01, 4.34251842e-01, 4.99873794e-01,
  5.73757579e-01, 6.56669521e-01, 7.49405043e-01, 8.52783210e-01,
  9.67640138e-01, 1.09482124e00, 1.23517231e00, 1.38952936e00,
  1.55870741e00, 1.74348805e00, 1.94460614e00, 2.16273548e00,
  2.39847384e00, 2.65232736e00, 2.92469468e00, 3.21585089e00,
  3.52593174e00, 3.85491824e00, 4.20262214e00, 4.56867248e00,
  4.95250359e00, 5.35334499e00, 5.77021329e00, 6.20190671e00,
  6.64700218e00, 7.10385565e00, 7.57060543e00, 8.04517909e00,
  8.52530380e00, 9.00852024e00, 9.49220006e00, 9.97356678e00,
  1.04497200e01, 1.09176625e01, 1.13743304e01, 1.18166252e01,
  1.22414481e01, 1.26457352e01, 1.30264942e01, 1.33808408e01,
  1.37060347e01, 1.39995149e01, 1.42589331e01, 1.44821848e01,
  1.46674378e01, 1.48131571e01, 1.49181262e01, 1.49814637e01]

theorem faddeeva_basis_9_sum : faddeeva_basis_9.sum = 34605204682361391 / 100000000000000 := by
  simp only [faddeeva_basis_9, List.sum_cons, List.sum_nil]
  norm_num

/-- The full coefficient table `l` of `_faddeeva`: the concatenation of the
ten blocks, in source order. -/
noncomputable def faddeeva_basis : List ℝ :=
  faddeeva_basis_0 ++ faddeeva_basis_1 ++ faddeeva_basis_2 ++ faddeeva_basis_3 ++
  faddeeva_basis_4 ++ faddeeva_basis_5 ++ faddeeva_basis_6 ++ faddeeva_basis_7 ++
  faddeeva_basis_8 ++ faddeeva_basis_9


/-- Horner evaluation over ℂ of the polynomial whose real coefficients are
given in ascending order of degree: the evaluation performed by
`np.polynomial.polynomial.Polynomial(a)` at a complex point. -/
noncomputable def polyEval (l : List ℝ) (x : ℂ) : ℂ :=
  l.foldr (fun (c : ℝ) (acc : ℂ) => (c : ℂ) + x * acc) 0

/-- The memoized attributes of `_faddeeva`: `N`, `L` and the flipped
coefficient array `vals` (the memoized polynomial is determined by `vals`). -/
structure FadCache where
  N : ℕ
  L : ℝ
  vals : List ℝ

/-- The cache `_faddeeva` builds on its first call: `N = 1000`,
`L = np.sqrt(N / np.sqrt(2))`, `vals = np.flip(l)` (ascending order). -/
noncomputable def fadInitCache : FadCache :=
  ⟨1000, Real.sqrt (1000 / Real.sqrt 2), faddeeva_basis.reverse⟩

/-- The computation `_faddeeva` performs after the memoization block:
`Z = (L + 1j*z)/(L - 1j*z)`, `w = 2*poly(Z)/(L - 1j*z)**2 + (1/sqrt(pi))/(L - 1j*z)`. -/
noncomputable def fadEval (c : FadCache) (z : ℂ) : ℂ :=
  2 * polyEval c.vals (((c.L : ℂ) + Complex.I * z) / ((c.L : ℂ) - Complex.I * z))
      / ((c.L : ℂ) - Complex.I * z) ^ 2
    + ((1 / Real.sqrt Real.pi : ℝ) : ℂ) / ((c.L : ℂ) - Complex.I * z)

/-- `_faddeeva` as the pure function of `z` it computes (every call returns
`fadEval` of the once-built cache). -/
noncomputable def _faddeeva (z : ℂ) : ℂ := fadEval fadInitCache z

/-- One stateful call of `_faddeeva`: if the cache has not been built yet
(`run_yet == False`, state `none`) it is built first; the call returns the
new state and the computed value. -/
noncomputable def fadCall (s : Option FadCache) (z : ℂ) : Option FadCache × ℂ :=
  match s with
  | none => (some fadInitCache, fadEval fadInitCache z)
  | some c => (some c, fadEval c z)

/-- The module state after a sequence of `_faddeeva` calls from state `s`. -/
noncomputable def fadRun (s : Option FadCache) (zs : List ℂ) : Option FadCache :=
  zs.foldl (fun s z => (fadCall s z).1) s

/-- `_voigt_decoder` (nested in `_arb_voigt`): maps the ratio `q` and FWHM `k`
to the pair `(gamma, sigma)` by the closed-form pseudo-Voigt decomposition
exactly as written in the source. -/
noncomputable def _voigt_decoder (q k : ℝ) : ℝ × ℝ :=
  let f_l := (-k*q^2 + (-1+q)^2 * Real.sqrt ((k^2*q^2*(4 - 8*q + 5*q^2))/(-1+q)^4))
      / (2*(-1+q)^2)
  let f_g := (k*q^2 - (-1+q)^2 * Real.sqrt ((k^2*q^2*(4 - 8*q + 5*q^2))/(-1+q)^4))
      / (2*(-1+q)*q)
  (f_l/2, f_g/(2*Real.sqrt (2*Real.log 2)))

/-- `_arb_voigt`: the voigt lineshape closure
`x ↦ intensity * Re(_faddeeva((x - center + gamma*1j)/(sqrt(2)*sigma))) / (sigma*sqrt(2*pi))`. -/
noncomputable def _arb_voigt (center intensity q peak_width : ℝ) : ℝ → ℝ :=
  let gamma := (_voigt_decoder q peak_width).1
  let sigma := (_voigt_decoder q peak_width).2
  let denom := sigma * Real.sqrt (2*Real.pi)
  fun x =>
    intensity *
      ((_faddeeva ((((x - center : ℝ) : ℂ) + (gamma : ℝ) * Complex.I)
          / ((Real.sqrt 2 * sigma : ℝ) : ℂ))).re / denom)

/-- `_arb_gaussian`: the gaussian lineshape closure, with the source's literal
operator grouping `intensity * (1/sigma*sqrt(2*pi)) * exp(-((x-center)**2/(2*sigma**2)))`
(in Python as in Lean, `1/sigma*sqrt(2*pi)` parses as `(1/sigma)*sqrt(2*pi)`). -/
noncomputable def _arb_gaussian (center intensity width : ℝ) : ℝ → ℝ :=
  let sigma := width / (2 * Real.sqrt (2 * Real.log 2))
  fun x => intensity * (1/sigma*Real.sqrt (2*Real.pi))
      * Real.exp (-((x - center)^2/(2*sigma^2)))

/-- `_arb_lorentz`: the lorentzian lineshape closure
`x ↦ (intensity/pi) * (gamma/((x-center)**2 + gamma**2))` with `gamma = width/2`. -/
noncomputable def _arb_lorentz (center intensity width : ℝ) : ℝ → ℝ :=
  let gamma := width/2
  fun x => (intensity/Real.pi) * (gamma/((x - center)^2 + gamma^2))

/-- `np.arange(start, stop, step)` for real arguments: `none` models the
`ZeroDivisionError` numpy raises when `step = 0`; otherwise the list of
points `start + i*step` for `i < max 0 ⌈(stop-start)/step⌉` (numpy's length
formula `ceil((stop - start)/step)` clamped at zero). -/
noncomputable def np_arange (start stop step : ℝ) : Option (List ℝ) :=
  if step = 0 then none
  else some ((List.range (⌈(stop - start)/step⌉.toNat)).map (fun i : ℕ => start + (i : ℝ) * step))

/-- `np.vectorize(f)(x)` as the source uses it (no `otypes`): numpy
determines the output dtype by calling `f` on the first element of `x`,
so on a size-0 input it raises (`ValueError: cannot call vectorize on
size 0 inputs unless otypes is set`), modeled as `none`; on a nonempty
input it applies `f` elementwise. -/
noncomputable def np_vectorize (f : ℝ → ℝ) (x : List ℝ) : Option (List ℝ) :=
  if x.isEmpty then none else some (x.map f)

/-- `voigt_line`: builds the axis with `np.arange(start, stop, step)` and
samples `_arb_voigt` over it with `np.vectorize`. -/
noncomputable def voigt_line (center intensity width q start stop step : ℝ) :
    Option (List ℝ × List ℝ) :=
  (np_arange start stop step).bind
    (fun x => (np_vectorize (_arb_voigt center intensity q width) x).map (fun y => (x, y)))

/-- `gauss_line`: builds the axis with `np.arange(start, stop, step)` and
samples `_arb_gaussian` over it with `np.vectorize`. -/
noncomputable def gauss_line (center intensity width start stop step : ℝ) :
    Option (List ℝ × List ℝ) :=
  (np_arange start stop step).bind
    (fun x => (np_vectorize (_arb_gaussian center intensity width) x).map (fun y => (x, y)))

/-- `lorentz_line`: builds the axis with `np.arange(start, stop, step)` and
samples `_arb_lorentz` over it with `np.vectorize`. -/
noncomputable def lorentz_line (center intensity width start stop step : ℝ) :
    Option (List ℝ × List ℝ) :=
  (np_arange start stop step).bind
    (fun x => (np_vectorize (_arb_lorentz center intensity width) x).map (fun y => (x, y)))

/-- The spec's transcription of the decoder's `f_G`, with denominator
`2*(1-q)*q`; used only to compare the spec's words with the source, whose
denominator is `2*(-1+q)*q`. -/
noncomputable def spec_f_G (q k : ℝ) : ℝ :=
  (k*q^2 - (1-q)^2 * Real.sqrt ((k^2*q^2*(4 - 8*q + 5*q^2))/(1-q)^4))
    / (2*(1-q)*q)

theorem faddeeva_basis_length : faddeeva_basis.length = 1000 := rfl

theorem polyEval_eq_sum (l : List ℝ) (x : ℂ) :
    polyEval l x = ∑ k in Finset.range l.length, ((l.getD k 0 : ℝ) : ℂ) * x ^ k := by
  induction l with
  | nil => simp [polyEval]
  | cons a l ih =>
    simp only [polyEval, List.foldr] at ih ⊢
    rw [ih, Finset.mul_sum, List.length_cons, Finset.sum_range_succ']
    simp only [List.getD_cons_succ, List.getD_cons_zero, pow_succ, pow_zero, mul_one]
    rw [add_comm]
    congr 1
    refine Finset.sum_congr rfl (fun k _ => ?_)
    ring

theorem polyEval_one (l : List ℝ) : polyEval l 1 = ((l.sum : ℝ) : ℂ) := by
  induction l with
  | nil => simp [polyEval]
  | cons a l ih =>
    simp only [polyEval, List.foldr, List.sum_cons] at ih ⊢
    rw [ih]; push_cast; ring

theorem faddeeva_basis_sum :
    faddeeva_basis.sum = 8651301818349994904344352151 / 25000000000000000000000000 := by
  simp only [faddeeva_basis, List.sum_append, faddeeva_basis_0_sum, faddeeva_basis_1_sum,
    faddeeva_basis_2_sum, faddeeva_basis_3_sum, faddeeva_basis_4_sum, faddeeva_basis_5_sum,
    faddeeva_basis_6_sum, faddeeva_basis_7_sum, faddeeva_basis_8_sum, faddeeva_basis_9_sum]
  norm_num

theorem np_arange_mem_iff_pos (start stop step : ℝ) (hs : 0 < step) (i : ℕ) :
    i < (⌈(stop - start)/step⌉).toNat ↔ start + i * step < stop := by
  rw [Int.lt_toNat, Int.lt_ceil]
  push_cast
  rw [lt_div_iff hs]
  constructor <;> intro h <;> linarith

theorem np_arange_mem_iff_neg (start stop step : ℝ) (hs : step < 0) (i : ℕ) :
    i < (⌈(stop - start)/step⌉).toNat ↔ stop < start + i * step := by
  rw [Int.lt_toNat, Int.lt_ceil]
  push_cast
  rw [lt_div_iff_of_neg hs]
  constructor <;> intro h <;> linarith

theorem sqrt_two_log_two_pos : 0 < Real.sqrt (2 * Real.log 2) := by
  apply Real.sqrt_pos.mpr
  have := Real.log_pos (by norm_num : (1:ℝ) < 2)
  linarith

/-- C9: calling any of `gauss_line`, `lorentz_line`, `voigt_line` with
`step = 0` fails fast with an error (numpy's `ZeroDivisionError`, modeled as
`none`) rather than looping while building the axis. -/
theorem step_zero_fails_fast (center intensity width q start stop : ℝ) :
    gauss_line center intensity width start stop 0 = none ∧
    lorentz_line center intensity width start stop 0 = none ∧
    voigt_line center intensity width q start stop 0 = none := by
  refine ⟨?_, ?_, ?_⟩ <;> simp [gauss_line, lorentz_line, voigt_line, np_arange]

/-- C6: the Gaussian and Lorentzian shape closures are exactly symmetric
about their center: `f (center + d) = f (center - d)` for every real `d`. -/
theorem shape_symmetry (center intensity width d : ℝ) (hw : 0 < width) :
    _arb_gaussian center intensity width (center + d)
        = _arb_gaussian center intensity width (center - d) ∧
    _arb_lorentz center intensity width (center + d)
        = _arb_lorentz center intensity width (center - d) := by
  constructor
  · simp only [_arb_gaussian]
    rw [show (center + d - center)^2 = (center - d - center)^2 by ring]
  · simp only [_arb_lorentz]
    rw [show (center + d - center)^2 = (center - d - center)^2 by ring]

theorem shape_symmetry_witness :
    (0:ℝ) < 1 ∧
    (_arb_gaussian 0 1 1 (0 + 2) = _arb_gaussian 0 1 1 (0 - 2) ∧
      _arb_lorentz 0 1 1 (0 + 2) = _arb_lorentz 0 1 1 (0 - 2)) :=
  ⟨by norm_num, shape_symmetry 0 1 1 2 (by norm_num)⟩

/-- C1: the code diverges from the claim: with `width = 2*sqrt(2*ln 2)`
(so `sigma = 1`) and `intensity = 1`, the value at the center is
`sqrt(2*pi)` — the literal grouping `(1/sigma)*sqrt(2*pi)` — and not the
claimed `intensity/(sigma*sqrt(2*pi)) = 1/sqrt(2*pi)`. -/
theorem gaussian_normalization_bug :
    _arb_gaussian 0 1 (2 * Real.sqrt (2 * Real.log 2)) 0 = Real.sqrt (2 * Real.pi) ∧
    _arb_gaussian 0 1 (2 * Real.sqrt (2 * Real.log 2)) 0 ≠ 1 / Real.sqrt (2 * Real.pi) := by
  have hs := sqrt_two_log_two_pos
  have hsig : (2 * Real.sqrt (2 * Real.log 2)) / (2 * Real.sqrt (2 * Real.log 2)) = 1 :=
    div_self (by positivity)
  have hval : _arb_gaussian 0 1 (2 * Real.sqrt (2 * Real.log 2)) 0
      = Real.sqrt (2 * Real.pi) := by
    simp only [_arb_gaussian, hsig]
    norm_num
  refine ⟨hval, ?_⟩
  rw [hval]
  have h2pi : (1:ℝ) < 2 * Real.pi := by
    have := Real.pi_gt_three
    linarith
  have h1 : 1 < Real.sqrt (2 * Real.pi) := by
    rw [show (1:ℝ) = Real.sqrt 1 from Real.sqrt_one.symm]
    exact Real.sqrt_lt_sqrt (by norm_num) (by linarith)
  intro heq
  have hne : Real.sqrt (2 * Real.pi) ≠ 0 := by linarith
  have hmul : Real.sqrt (2 * Real.pi) * Real.sqrt (2 * Real.pi) = 2 * Real.pi :=
    Real.mul_self_sqrt (by positivity)
  have hone : Real.sqrt (2 * Real.pi) * Real.sqrt (2 * Real.pi) = 1 := by
    nth_rewrite 1 [heq]
    field_simp
  linarith

theorem np_arange_ten : np_arange 0 10 1 = some [0, 1, 2, 3, 4, 5, 6, 7, 8, 9] := by
  have hc : ⌈((10:ℝ) - 0)/1⌉ = 10 := by norm_num
  simp only [np_arange]
  rw [if_neg (by norm_num : ¬(1:ℝ) = 0), hc,
      show (10:ℤ).toNat = 10 from rfl,
      show List.range 10 = [0, 1, 2, 3, 4, 5, 6, 7, 8, 9] from by decide]
  simp only [List.map]
  norm_num

theorem np_arange_step_three : np_arange 0 10 3 = some [0, 3, 6, 9] := by
  have hc : ⌈((10:ℝ) - 0)/3⌉ = 4 := by
    rw [Int.ceil_eq_iff] <;> norm_num
  simp only [np_arange]
  rw [if_neg (by norm_num : ¬(3:ℝ) = 0), hc,
      show (4:ℤ).toNat = 4 from rfl,
      show List.range 4 = [0, 1, 2, 3] from by decide]
  simp only [List.map]
  norm_num

theorem np_arange_empty : np_arange 5 5 1 = some [] := by
  have hc : ⌈((5:ℝ) - 5)/1⌉ = 0 := by norm_num
  simp only [np_arange]
  rw [if_neg (by norm_num : ¬(1:ℝ) = 0), hc]
  simp

/-- C5 counterexample: at `start = 5`, `stop = 5`, `step = 1` (so `step ≠ 0`
and the axis enumerates zero points) none of the three generators returns a
pair of sequences: `np.vectorize` without `otypes` raises on the size-0
axis array, so each call errors instead of returning `([], [])`. -/
theorem line_empty_axis_counterexample :
    (1:ℝ) ≠ 0 ∧
    np_arange 5 5 1 = some [] ∧
    gauss_line 0 1 1 5 5 1 = none ∧
    lorentz_line 0 1 1 5 5 1 = none ∧
    voigt_line 0 1 1 (1/2) 5 5 1 = none := by
  refine ⟨by norm_num, np_arange_empty, ?_, ?_, ?_⟩ <;>
    simp [gauss_line, lorentz_line, voigt_line, np_arange_empty, np_vectorize]

/-- C5 amended: for `step ≠ 0` the axis enumerates exactly the points
`start + i*step` strictly before `stop` in the direction of `step`, possibly
zero of them (with the claim's three concrete axis examples); when at least
one point is enumerated each line generator returns that axis paired with
the equal-length elementwise image of its shape function, and when zero
points are enumerated (e.g. `start=5, stop=5, step=1`) each generator
errors — `np.vectorize` raises on the size-0 input — instead of returning a
pair of empty sequences. -/
theorem line_sampling_spec (center intensity width q start stop step : ℝ)
    (hs : step ≠ 0) :
    ∃ xs : List ℝ,
      np_arange start stop step = some xs ∧
      (xs.map (_arb_gaussian center intensity width)).length = xs.length ∧
      (∀ (i : ℕ) (hi : i < xs.length), xs[i] = start + i * step) ∧
      (0 < step → ∀ i : ℕ, (i < xs.length ↔ start + i * step < stop)) ∧
      (step < 0 → ∀ i : ℕ, (i < xs.length ↔ stop < start + i * step)) ∧
      (xs ≠ [] →
        gauss_line center intensity width start stop step
            = some (xs, xs.map (_arb_gaussian center intensity width)) ∧
        lorentz_line center intensity width start stop step
            = some (xs, xs.map (_arb_lorentz center intensity width)) ∧
        voigt_line center intensity width q start stop step
            = some (xs, xs.map (_arb_voigt center intensity q width))) ∧
      (xs = [] →
        gauss_line center intensity width start stop step = none ∧
        lorentz_line center intensity width start stop step = none ∧
        voigt_line center intensity width q start stop step = none) ∧
      np_arange 0 10 1 = some [0, 1, 2, 3, 4, 5, 6, 7, 8, 9] ∧
      np_arange 0 10 3 = some [0, 3, 6, 9] ∧
      np_arange 5 5 1 = some [] := by
  have ha : np_arange start stop step
      = some ((List.range (⌈(stop - start)/step⌉.toNat)).map
          (fun i : ℕ => start + (i : ℝ) * step)) := by
    simp [np_arange, hs]
  refine ⟨(List.range (⌈(stop - start)/step⌉.toNat)).map (fun i : ℕ => start + (i : ℝ) * step),
    ha, List.length_map _ _, ?_, ?_, ?_, ?_, ?_,
    np_arange_ten, np_arange_step_three, np_arange_empty⟩
  · intro i hi
    simp only [List.length_map, List.length_range] at hi
    simp [List.getElem_map, List.getElem_range]
  · intro hpos i
    simp only [List.length_map, List.length_range]
    exact np_arange_mem_iff_pos start stop step hpos i
  · intro hneg i
    simp only [List.length_map, List.length_range]
    exact np_arange_mem_iff_neg start stop step hneg i
  · intro hne
    refine ⟨?_, ?_, ?_⟩ <;>
      simp [gauss_line, lorentz_line, voigt_line, ha, np_vectorize, hne]
  · intro hnil
    rw [hnil] at ha
    refine ⟨?_, ?_, ?_⟩ <;>
      simp [gauss_line, lorentz_line, voigt_line, ha, np_vectorize]

theorem line_sampling_spec_witness :
    (1:ℝ) ≠ 0 ∧
    (∃ xs : List ℝ,
      np_arange 0 10 1 = some xs ∧
      (xs.map (_arb_gaussian 0 1 1)).length = xs.length ∧
      (∀ (i : ℕ) (hi : i < xs.length), xs[i] = 0 + i * 1) ∧
      ((0:ℝ) < 1 → ∀ i : ℕ, (i < xs.length ↔ (0:ℝ) + i * 1 < 10)) ∧
      ((1:ℝ) < 0 → ∀ i : ℕ, (i < xs.length ↔ (10:ℝ) < 0 + i * 1)) ∧
      (xs ≠ [] →
        gauss_line 0 1 1 0 10 1 = some (xs, xs.map (_arb_gaussian 0 1 1)) ∧
        lorentz_line 0 1 1 0 10 1 = some (xs, xs.map (_arb_lorentz 0 1 1)) ∧
        voigt_line 0 1 1 (1/2) 0 10 1 = some (xs, xs.map (_arb_voigt 0 1 (1/2) 1))) ∧
      (xs = [] →
        gauss_line 0 1 1 0 10 1 = none ∧
        lorentz_line 0 1 1 0 10 1 = none ∧
        voigt_line 0 1 1 (1/2) 0 10 1 = none) ∧
      np_arange 0 10 1 = some [0, 1, 2, 3, 4, 5, 6, 7, 8, 9] ∧
      np_arange 0 10 3 = some [0, 3, 6, 9] ∧
      np_arange 5 5 1 = some []) :=
  ⟨by norm_num, line_sampling_spec 0 1 1 (1/2) 0 10 1 (by norm_num)⟩

theorem np_arange_window :
    np_arange 990 1010 1 = some [990, 991, 992, 993, 994, 995, 996, 997, 998, 999,
      1000, 1001, 1002, 1003, 1004, 1005, 1006, 1007, 1008, 1009] := by
  have hc : ⌈((1010:ℝ) - 990)/1⌉ = 20 := by norm_num
  simp only [np_arange]
  rw [if_neg (by norm_num : ¬(1:ℝ) = 0), hc,
      show (20:ℤ).toNat = 20 from rfl,
      show List.range 20 = [0, 1, 2, 3, 4, 5, 6, 7, 8, 9, 10, 11, 12, 13, 14, 15,
        16, 17, 18, 19] from by decide]
  simp only [List.map]
  norm_num

/-- C4: the Lorentzian closure is `(intensity/pi) * gamma / ((x-center)^2 + gamma^2)`
with `gamma = width/2`; `lorentz_line 1000 5 10 990 1010 1` samples it on the
20 x-values `990..1009`; the value at the center is `(5/pi)/5`, it is the
global maximum, and values fall strictly as `|x - 1000|` grows. -/
theorem lorentz_line_end_to_end :
    (∀ center intensity width x : ℝ, _arb_lorentz center intensity width x
        = (intensity/Real.pi) * ((width/2) / ((x - center)^2 + (width/2)^2))) ∧
    lorentz_line 1000 5 10 990 1010 1
        = some ([990, 991, 992, 993, 994, 995, 996, 997, 998, 999,
            1000, 1001, 1002, 1003, 1004, 1005, 1006, 1007, 1008, 1009],
          ([990, 991, 992, 993, 994, 995, 996, 997, 998, 999,
            1000, 1001, 1002, 1003, 1004, 1005, 1006, 1007, 1008, 1009] : List ℝ).map
            (_arb_lorentz 1000 5 10)) ∧
    ([990, 991, 992, 993, 994, 995, 996, 997, 998, 999,
      1000, 1001, 1002, 1003, 1004, 1005, 1006, 1007, 1008, 1009] : List ℝ).length = 20 ∧
    _arb_lorentz 1000 5 10 1000 = (5/Real.pi)/5 ∧
    (∀ x : ℝ, _arb_lorentz 1000 5 10 x ≤ _arb_lorentz 1000 5 10 1000) ∧
    (∀ x y : ℝ, |x - 1000| < |y - 1000| →
        _arb_lorentz 1000 5 10 y < _arb_lorentz 1000 5 10 x) := by
  have hpi : (0:ℝ) < Real.pi := Real.pi_pos
  have hform : ∀ center intensity width x : ℝ, _arb_lorentz center intensity width x
      = (intensity/Real.pi) * ((width/2) / ((x - center)^2 + (width/2)^2)) := by
    intro center intensity width x
    simp only [_arb_lorentz]
  refine ⟨hform, ?_, by norm_num, ?_, ?_, ?_⟩
  · simp [lorentz_line, np_arange_window, np_vectorize]
  · rw [hform]
    norm_num
    rw [div_div, mul_comm, ← div_div]
    norm_num
  · intro x
    have h2 : ((1000:ℝ) - 1000)^2 ≤ (x - 1000)^2 := by nlinarith [sq_nonneg (x - 1000)]
    rw [hform, hform]
    gcongr
  · intro x y hxy
    have h2 : (x - 1000)^2 < (y - 1000)^2 := by
      rw [← sq_abs (x - 1000), ← sq_abs (y - 1000)]
      exact pow_lt_pow_left hxy (abs_nonneg _) (by norm_num)
    rw [hform, hform]
    gcongr

theorem voigt_sqrt_simp (q k : ℝ) (hq0 : 0 < q) (hq1 : q < 1) (hk : 0 < k) :
    Real.sqrt ((k^2*q^2*(4 - 8*q + 5*q^2))/(-1+q)^4)
      = (k*q/(1-q)^2) * Real.sqrt (4 - 8*q + 5*q^2) := by
  have hne : (1 - q : ℝ) ≠ 0 := by intro h; nlinarith
  have hne' : (-1 + q : ℝ) ≠ 0 := by intro h; nlinarith
  have harg : (k^2*q^2*(4 - 8*q + 5*q^2))/(-1+q)^4
      = (k*q/(1-q)^2)^2 * (4 - 8*q + 5*q^2) := by
    field_simp
    ring
  rw [harg, Real.sqrt_mul (sq_nonneg _), Real.sqrt_sq (by positivity)]

theorem voigt_gamma_pos (q k : ℝ) (hq0 : 0 < q) (hq1 : q < 1) (hk : 0 < k) :
    0 < (_voigt_decoder q k).1 := by
  have h1q : (0:ℝ) < 1 - q := by linarith
  have hne : (1 - q : ℝ) ≠ 0 := ne_of_gt h1q
  have hD : q^2 < 4 - 8*q + 5*q^2 := by nlinarith
  have hsqD : q < Real.sqrt (4 - 8*q + 5*q^2) := (Real.lt_sqrt hq0.le).mpr hD
  have hkey : ((-1+q)^2 : ℝ) * ((k*q/(1-q)^2) * Real.sqrt (4 - 8*q + 5*q^2))
      = k*q*Real.sqrt (4 - 8*q + 5*q^2) := by
    field_simp
    ring
  simp only [_voigt_decoder, voigt_sqrt_simp q k hq0 hq1 hk, hkey]
  apply div_pos _ (by norm_num : (0:ℝ) < 2)
  apply div_pos
  · nlinarith [mul_pos hk hq0]
  · nlinarith [mul_pos h1q h1q]

theorem voigt_sigma_pos (q k : ℝ) (hq0 : 0 < q) (hq1 : q < 1) (hk : 0 < k) :
    0 < (_voigt_decoder q k).2 := by
  have h1q : (0:ℝ) < 1 - q := by linarith
  have hne : (1 - q : ℝ) ≠ 0 := ne_of_gt h1q
  have hD : q^2 < 4 - 8*q + 5*q^2 := by nlinarith
  have hsqD : q < Real.sqrt (4 - 8*q + 5*q^2) := (Real.lt_sqrt hq0.le).mpr hD
  have hkey : ((-1+q)^2 : ℝ) * ((k*q/(1-q)^2) * Real.sqrt (4 - 8*q + 5*q^2))
      = k*q*Real.sqrt (4 - 8*q + 5*q^2) := by
    field_simp
    ring
  simp only [_voigt_decoder, voigt_sqrt_simp q k hq0 hq1 hk, hkey]
  apply div_pos _ (mul_pos (by norm_num : (0:ℝ) < 2) sqrt_two_log_two_pos)
  apply div_pos_of_neg_of_neg
  · nlinarith [mul_pos hk hq0]
  · nlinarith

/-- C10: for `0 < q < 1` and `k > 0` the decoder returns `gamma > 0` and
`sigma > 0` (since `sqrt(4 - 8q + 5q^2) > q` there), so the Voigt
denominator `sigma*sqrt(2*pi)` is strictly positive. -/
theorem voigt_decoder_pos (q k : ℝ) (hq0 : 0 < q) (hq1 : q < 1) (hk : 0 < k) :
    0 < (_voigt_decoder q k).1 ∧ 0 < (_voigt_decoder q k).2 ∧
    0 < (_voigt_decoder q k).2 * Real.sqrt (2 * Real.pi) := by
  refine ⟨voigt_gamma_pos q k hq0 hq1 hk, voigt_sigma_pos q k hq0 hq1 hk, ?_⟩
  exact mul_pos (voigt_sigma_pos q k hq0 hq1 hk)
    (Real.sqrt_pos.mpr (by positivity))

theorem voigt_decoder_pos_witness :
    ((0:ℝ) < 1/2 ∧ (1/2:ℝ) < 1 ∧ (0:ℝ) < 1) ∧
    (0 < (_voigt_decoder (1/2) 1).1 ∧ 0 < (_voigt_decoder (1/2) 1).2 ∧
      0 < (_voigt_decoder (1/2) 1).2 * Real.sqrt (2 * Real.pi)) :=
  ⟨by norm_num, voigt_decoder_pos (1/2) 1 (by norm_num) (by norm_num) (by norm_num)⟩

/-- C2 counterexample: at `q = 1/2`, `k = 1` the decoder's `sigma` is strictly
positive while the spec's `f_G/(2*sqrt(2*ln 2))`, whose `f_G` denominator is
written `2*(1-q)*q` instead of the source's `2*(-1+q)*q`, is strictly
negative; the two are therefore unequal. -/
theorem voigt_decoder_spec_sigma_counterexample :
    (_voigt_decoder (1/2) 1).2 ≠ spec_f_G (1/2) 1 / (2*Real.sqrt (2*Real.log 2)) ∧
    0 < (_voigt_decoder (1/2) 1).2 ∧
    spec_f_G (1/2) 1 / (2*Real.sqrt (2*Real.log 2)) < 0 := by
  have hσ : 0 < (_voigt_decoder (1/2) 1).2 :=
    voigt_sigma_pos (1/2) 1 (by norm_num) (by norm_num) (by norm_num)
  have h5 : (2:ℝ) < Real.sqrt 5 := by
    rw [show (2:ℝ) = Real.sqrt 4 from by
      rw [show (4:ℝ) = 2^2 by norm_num, Real.sqrt_sq]; norm_num]
    exact Real.sqrt_lt_sqrt (by norm_num) (by norm_num)
  have hspec : spec_f_G (1/2) 1 / (2*Real.sqrt (2*Real.log 2)) < 0 := by
    apply div_neg_of_neg_of_pos
    · simp only [spec_f_G]
      rw [show ((1:ℝ)^2*(1/2)^2*(4 - 8*(1/2) + 5*(1/2)^2))/(1-(1/2))^4 = 5 from by norm_num]
      apply div_neg_of_neg_of_pos
      · nlinarith
      · norm_num
    · exact mul_pos (by norm_num : (0:ℝ) < 2) sqrt_two_log_two_pos
  exact ⟨ne_of_gt (lt_trans hspec hσ), hσ, hspec⟩

/-- C2 amended: the decoder's `gamma` is exactly the spec's
`f_L/2` (the spec's `(1-q)` powers agree with the source's `(-1+q)` powers),
but its `sigma` is the NEGATION of the spec's `f_G` divided by
`2*sqrt(2*ln 2)`: the source's `f_G` denominator is `2*(-1+q)*q`, the sign
opposite of the spec's `2*(1-q)*q`. -/
theorem voigt_decoder_formulas (q k : ℝ) (hq0 : 0 < q) (hq1 : q < 1) :
    (_voigt_decoder q k).1 =
      ((-k*q^2 + (1-q)^2 * Real.sqrt ((k^2*q^2*(4 - 8*q + 5*q^2))/(1-q)^4)) / (2*(1-q)^2)) / 2 ∧
    (_voigt_decoder q k).2 = (- spec_f_G q k) / (2*Real.sqrt (2*Real.log 2)) := by
  have e2 : ((-1+q):ℝ)^2 = (1-q)^2 := by ring
  have e4 : ((-1+q):ℝ)^4 = (1-q)^4 := by ring
  constructor
  · simp only [_voigt_decoder]
    rw [e2, e4]
  · simp only [_voigt_decoder, spec_f_G]
    rw [e2, e4, show (2*(-1+q)*q : ℝ) = -(2*(1-q)*q) by ring, div_neg]

theorem voigt_decoder_formulas_witness :
    ((0:ℝ) < 1/2 ∧ (1/2:ℝ) < 1) ∧
    ((_voigt_decoder (1/2) 1).1 =
      ((-1*(1/2)^2 + (1-(1/2))^2 *
          Real.sqrt (((1:ℝ)^2*(1/2)^2*(4 - 8*(1/2) + 5*(1/2)^2))/(1-(1/2))^4))
        / (2*(1-(1/2))^2)) / 2 ∧
     (_voigt_decoder (1/2) 1).2 = (- spec_f_G (1/2) 1) / (2*Real.sqrt (2*Real.log 2))) :=
  ⟨by norm_num, voigt_decoder_formulas (1/2) 1 (by norm_num) (by norm_num)⟩

/-- C3: for every complex `z`, `_faddeeva z` is
`2*p(Z)/(L - i*z)^2 + (1/sqrt(pi))/(L - i*z)` with `L = sqrt(1000/sqrt 2)`,
`Z = (L + i*z)/(L - i*z)`, and `p` the degree-999 polynomial whose ascending
coefficient sequence is the 1000-entry stored table reversed (index 0 the
lowest-degree term). -/
theorem faddeeva_polynomial_form (z : ℂ) :
    _faddeeva z =
      2 * (∑ k in Finset.range 1000,
            ((faddeeva_basis.reverse.getD k 0 : ℝ) : ℂ) *
              ((((Real.sqrt (1000 / Real.sqrt 2) : ℝ) : ℂ) + Complex.I * z)
                / (((Real.sqrt (1000 / Real.sqrt 2) : ℝ) : ℂ) - Complex.I * z)) ^ k)
        / (((Real.sqrt (1000 / Real.sqrt 2) : ℝ) : ℂ) - Complex.I * z) ^ 2
      + ((1 / Real.sqrt Real.pi : ℝ) : ℂ)
        / (((Real.sqrt (1000 / Real.sqrt 2) : ℝ) : ℂ) - Complex.I * z) ∧
    faddeeva_basis.length = 1000 := by
  refine ⟨?_, faddeeva_basis_length⟩
  simp only [_faddeeva, fadEval, fadInitCache]
  rw [polyEval_eq_sum, List.length_reverse, faddeeva_basis_length]

theorem fadRun_some (c : FadCache) (zs : List ℂ) : fadRun (some c) zs = some c := by
  induction zs with
  | nil => rfl
  | cons z zs ih =>
    simp only [fadRun, List.foldl, fadCall] at ih ⊢
    exact ih

theorem fadRun_reachable (zs : List ℂ) :
    fadRun none zs = none ∨ fadRun none zs = some fadInitCache := by
  cases zs with
  | nil => exact Or.inl rfl
  | cons z zs =>
    right
    show List.foldl (fun s z => (fadCall s z).1) ((fadCall none z).1) zs = some fadInitCache
    exact fadRun_some fadInitCache zs

/-- C7: `_faddeeva` is deterministic despite its memoized table: the value a
call returns depends only on its argument, no matter how many calls preceded
it, and after the first call the module state is the once-built cache and
never changes again. -/
theorem faddeeva_deterministic :
    (∀ (zs₁ zs₂ : List ℂ) (z : ℂ),
      (fadCall (fadRun none zs₁) z).2 = (fadCall (fadRun none zs₂) z).2) ∧
    (∀ (zs : List ℂ) (z : ℂ), (fadCall (fadRun none zs) z).2 = _faddeeva z) ∧
    (∀ (z : ℂ) (zs : List ℂ), fadRun none (z :: zs) = some fadInitCache) := by
  have hout : ∀ (zs : List ℂ) (z : ℂ), (fadCall (fadRun none zs) z).2 = _faddeeva z := by
    intro zs z
    rcases fadRun_reachable zs with h | h <;> rw [h] <;> rfl
  refine ⟨fun zs₁ zs₂ z => ?_, hout, fun z zs => ?_⟩
  · rw [hout zs₁ z, hout zs₂ z]
  · show List.foldl (fun s z => (fadCall s z).1) ((fadCall none z).1) zs = some fadInitCache
    exact fadRun_some fadInitCache zs

theorem sqrt_two_bounds : 1.4142135623 < Real.sqrt 2 ∧ Real.sqrt 2 < 1.4142135624 :=
  ⟨(Real.lt_sqrt (by norm_num)).mpr (by norm_num),
   (Real.sqrt_lt' (by norm_num)).mpr (by norm_num)⟩

theorem sqrt_pi_bounds : 1.7724530 < Real.sqrt Real.pi ∧ Real.sqrt Real.pi < 1.7724540 := by
  constructor
  · apply (Real.lt_sqrt (by norm_num)).mpr
    have h := Real.pi_gt_d6
    have : (1.7724530:ℝ)^2 < 3.141592 := by norm_num
    linarith
  · apply (Real.sqrt_lt' (by norm_num)).mpr
    have h := Real.pi_lt_d6
    have : (3.141593:ℝ) < 1.7724540^2 := by norm_num
    linarith

theorem faddeeva_L_bounds : 26.5914 < Real.sqrt (1000 / Real.sqrt 2) ∧
    Real.sqrt (1000 / Real.sqrt 2) < 26.5915 := by
  have hs0 : (0:ℝ) < Real.sqrt 2 := Real.sqrt_pos.mpr (by norm_num)
  obtain ⟨hs1, hs2⟩ := sqrt_two_bounds
  constructor
  · apply (Real.lt_sqrt (by norm_num)).mpr
    have hd : (1000:ℝ)/1.4142135624 < 1000/Real.sqrt 2 :=
      div_lt_div_of_pos_left (by norm_num) hs0 hs2
    have : (26.5914:ℝ)^2 < 1000/1.4142135624 := by norm_num
    linarith
  · apply (Real.sqrt_lt' (by norm_num)).mpr
    have hd : (1000:ℝ)/Real.sqrt 2 < 1000/1.4142135623 :=
      div_lt_div_of_pos_left (by norm_num) (by norm_num) hs1
    have : (1000:ℝ)/1.4142135623 < 26.5915^2 := by norm_num
    linarith

theorem faddeeva_zero_eval :
    _faddeeva 0 = ((faddeeva_basis.sum * Real.sqrt 2 / 500
        + (1 / Real.sqrt Real.pi) / Real.sqrt (1000 / Real.sqrt 2) : ℝ) : ℂ) := by
  have hs0 : (0:ℝ) < Real.sqrt 2 := Real.sqrt_pos.mpr (by norm_num)
  have hL : (0:ℝ) < Real.sqrt (1000 / Real.sqrt 2) :=
    Real.sqrt_pos.mpr (by positivity)
  have hLne : ((Real.sqrt (1000 / Real.sqrt 2) : ℝ) : ℂ) ≠ 0 :=
    Complex.ofReal_ne_zero.mpr (ne_of_gt hL)
  have hL2 : Real.sqrt (1000 / Real.sqrt 2) ^ 2 = 1000 / Real.sqrt 2 :=
    Real.sq_sqrt (by positivity)
  simp only [_faddeeva, fadEval, fadInitCache, mul_zero, add_zero, sub_zero]
  rw [div_self hLne, polyEval_one, List.sum_reverse]
  rw [← Complex.ofReal_pow, ← Complex.ofReal_ofNat, ← Complex.ofReal_mul,
      ← Complex.ofReal_div, ← Complex.ofReal_div, ← Complex.ofReal_add]
  rw [Complex.ofReal_inj]
  rw [hL2]
  have hsne : Real.sqrt 2 ≠ 0 := ne_of_gt hs0
  field_simp
  ring

theorem faddeeva_zero_re_near_one :
    |faddeeva_basis.sum * Real.sqrt 2 / 500
      + (1 / Real.sqrt Real.pi) / Real.sqrt (1000 / Real.sqrt 2) - 1| ≤ 1e-6 := by
  obtain ⟨hs1, hs2⟩ := sqrt_two_bounds
  obtain ⟨hp1, hp2⟩ := sqrt_pi_bounds
  obtain ⟨hl1, hl2⟩ := faddeeva_L_bounds
  have hppos : (0:ℝ) < Real.sqrt Real.pi := by linarith
  have hLpos : (0:ℝ) < Real.sqrt (1000 / Real.sqrt 2) := by linarith
  rw [faddeeva_basis_sum]
  rw [show (1 / Real.sqrt Real.pi) / Real.sqrt (1000 / Real.sqrt 2)
      = 1 / (Real.sqrt Real.pi * Real.sqrt (1000 / Real.sqrt 2)) from by rw [div_div]]
  have hpL1 : (1.7724530:ℝ)*26.5914 < Real.sqrt Real.pi * Real.sqrt (1000 / Real.sqrt 2) := by
    nlinarith
  have hpL2 : Real.sqrt Real.pi * Real.sqrt (1000 / Real.sqrt 2) < (1.7724540:ℝ)*26.5915 := by
    nlinarith
  have hpLpos : (0:ℝ) < Real.sqrt Real.pi * Real.sqrt (1000 / Real.sqrt 2) :=
    mul_pos hppos hLpos
  have h2lo : 1/((1.7724540:ℝ)*26.5915)
      < 1/(Real.sqrt Real.pi * Real.sqrt (1000 / Real.sqrt 2)) :=
    one_div_lt_one_div_of_lt hpLpos hpL2
  have h2hi : 1/(Real.sqrt Real.pi * Real.sqrt (1000 / Real.sqrt 2))
      < 1/((1.7724530:ℝ)*26.5914) :=
    one_div_lt_one_div_of_lt (by norm_num) hpL1
  rw [abs_le]
  constructor <;> nlinarith

/-- C8 counterexample: at `z = 0` the evaluator's value is within `1e-6` of
`1`, hence at distance greater than `0.4` from the claimed `1/sqrt(pi)`
(≈ 0.5642) — far outside any ~1e-6 tolerance. -/
theorem faddeeva_zero_not_inv_sqrt_pi :
    0.4 < Complex.abs (_faddeeva 0 - ((1 / Real.sqrt Real.pi : ℝ) : ℂ)) := by
  rw [faddeeva_zero_eval, ← Complex.ofReal_sub, Complex.abs_ofReal]
  have hnear := faddeeva_zero_re_near_one
  rw [abs_le] at hnear
  obtain ⟨hp1, hp2⟩ := sqrt_pi_bounds
  have hppos : (0:ℝ) < Real.sqrt Real.pi := by linarith
  have hinv : 1/Real.sqrt Real.pi < 0.5642 := by
    rw [div_lt_iff hppos]
    nlinarith
  have hinvpos : 0 < 1/Real.sqrt Real.pi := by positivity
  calc (0.4:ℝ) < faddeeva_basis.sum * Real.sqrt 2 / 500
        + (1 / Real.sqrt Real.pi) / Real.sqrt (1000 / Real.sqrt 2)
        - 1/Real.sqrt Real.pi := by linarith [hnear.1]
    _ ≤ |faddeeva_basis.sum * Real.sqrt 2 / 500
        + (1 / Real.sqrt Real.pi) / Real.sqrt (1000 / Real.sqrt 2)
        - 1/Real.sqrt Real.pi| := le_abs_self _

/-- C8 amended: `_faddeeva 0` equals `1` — the true value `w(0) = exp(0)*erfc(0) = 1`
of the Faddeeva function — to within the ~1e-6 approximation tolerance. -/
theorem faddeeva_zero_approx_one : Complex.abs (_faddeeva 0 - 1) ≤ 1e-6 := by
  rw [faddeeva_zero_eval, ← Complex.ofReal_one, ← Complex.ofReal_sub, Complex.abs_ofReal]
  exact faddeeva_zero_re_near_one
